import Mathlib

/-
Verification of the canvas-engine scene/object core against its sources.

The repository ships several generations of the same engine:

* `Lib`       — src/lib/CanvasEngine.ts, src/lib/CanvasObject.ts (and the
                identical engines in src/unnamed/part_000, part_002,
                part_003): directory is a plain JS object, `createObject`
                always allocates, `destroy` only detaches the DOM node.
* `MapV`      — src/unnamed/part_001 (engine) + src/unnamed/part_004
                (object): directory is a `Map`, duplicate ids are refused,
                movement is advanced by the engine's frame loop `update`,
                `destroy` unregisters.
* `RafV`      — src/unnamed/part_005 (object): movement runs its own
                `requestAnimationFrame` loop (`setMoveToPosition`/`loop`),
                collision sweep may fabricate a placeholder object.
* `MouseUtil` — src/unnamed/part_007 (getMousePosition utility).

Coordinates are embedded as rationals; the JS sources compute with IEEE
doubles, and every concrete input used below is one on which double and
exact arithmetic agree.  `Math.hypot` returns a generally irrational
value, so functions that consume a computed distance take it as an extra
argument `dist`, constrained in theorems by `IsDist` (the exact
characterisation of `Math.hypot`).
-/

/-- Association-list lookup, modelling JS object property access and
`Map.get` (`some` = present, `none` = `undefined`). -/
def lookupKey {κ α : Type} [DecidableEq κ] : List (κ × α) → κ → Option α
  | [], _ => none
  | (k, v) :: rest, k0 => if k = k0 then some v else lookupKey rest k0

/-- Association-list update, modelling `obj[k] = v` / `Map.set`: replaces
the first entry with that key, appends when absent. -/
def setEntry {κ α : Type} [DecidableEq κ] : List (κ × α) → κ → α → List (κ × α)
  | [], k0, v0 => [(k0, v0)]
  | (k, v) :: rest, k0, v0 =>
    if k = k0 then (k0, v0) :: rest else (k, v) :: setEntry rest k0 v0

/-- Association-list removal, modelling `Map.delete` (keys are unique in a
`Map`, so removing every entry with the key is the same operation). -/
def eraseKey {κ α : Type} [DecidableEq κ] : List (κ × α) → κ → List (κ × α)
  | [], _ => []
  | (k, v) :: rest, k0 => if k = k0 then eraseKey rest k0 else (k, v) :: eraseKey rest k0

/-- Number of entries stored under a key (a JS object or `Map` directory
can hold at most one, so this counts directory entries for an id). -/
def countKey {κ α : Type} [DecidableEq κ] : List (κ × α) → κ → Nat
  | [], _ => 0
  | (k, _) :: rest, k0 => (if k = k0 then 1 else 0) + countKey rest k0

/-- Logical scene position, the `#position`/`#pos` record of the sources. -/
structure Pos where
  x : ℚ
  y : ℚ
deriving DecidableEq

/-- Squared length of a vector, `dx*dx + dy*dy`. -/
def hypotSq (dx dy : ℚ) : ℚ := dx * dx + dy * dy

/-- Exact characterisation of `Math.hypot dx dy = d`: the unique
non-negative square root of `dx*dx + dy*dy`. -/
def IsDist (dx dy d : ℚ) : Prop := 0 ≤ d ∧ d * d = hypotSq dx dy

/-- JS values stored in the per-object variable store.  `undef` is the JS
`undefined`, `null` the JS `null`; other primitives as tagged data. -/
inductive JsVal where
  | undef : JsVal
  | null : JsVal
  | num : ℚ → JsVal
  | str : String → JsVal
  | boolean : Bool → JsVal
deriving DecidableEq

/-- JS nullish test: `v ?? w` picks `w` exactly when `v` is nullish. -/
def nullish : JsVal → Bool
  | JsVal.undef => true
  | JsVal.null => true
  | _ => false

/-- A `getBoundingClientRect()` result: `x`,`y` are the rectangle's
TOP-LEFT corner (DOMRect.x/.y), `width`/`height` its extent. -/
structure Rect where
  x : ℚ
  y : ℚ
  width : ℚ
  height : ℚ
deriving DecidableEq

/-- The overlap condition the sources test (src/lib/CanvasObject.ts
setPosition, identical in part_005): absolute difference of the two
rectangles' top-left `x` (resp. `y`) coordinates at most half the sum of
the widths (resp. heights). -/
def collides (a b : Rect) : Prop :=
  |a.x - b.x| ≤ (a.width + b.width) / 2 ∧ |a.y - b.y| ≤ (a.height + b.height) / 2

instance (a b : Rect) : Decidable (collides a b) := by
  unfold collides
  exact instDecidableAnd

/-- Modelled from the spec: the centre-based axis-aligned overlap test the
specification describes, with centres at corner + extent/2.  Declared only
to compare against `collides`. -/
def centersOverlap (a b : Rect) : Prop :=
  |(a.x + a.width / 2) - (b.x + b.width / 2)| ≤ (a.width + b.width) / 2 ∧
  |(a.y + a.height / 2) - (b.y + b.height / 2)| ≤ (a.height + b.height) / 2

/-- A DOM element as the collision sweep sees it: its id attribute, its
class list, and its bounding rectangle. -/
structure Elem where
  eid : String
  classes : List String
  rect : Rect
deriving DecidableEq

/-- The sweep's id extraction: characters of the element id up to the
first space (the `otherId` loop in setPosition). -/
def firstIdToken (s : String) : String :=
  String.mk (s.toList.takeWhile (fun c => c != ' '))

/-- One tag of the collision sweep of src/lib/CanvasObject.ts /
part_005 `setPosition`: enumerate the document's elements carrying class
`key` (`getElementsByClassName`), keep those whose bounding rectangle
passes `collides`; the subscribed handler is invoked once per element
returned here. -/
def sweepMatches (selfRect : Rect) (key : String) (doc : List Elem) : List String :=
  (doc.filter (fun el => el.classes.contains key && decide (collides selfRect el.rect))).map
    Elem.eid

/-- part_004's `Movement` record (startTime is replaced by passing the
elapsed time into `update` directly). -/
structure Movement where
  startX : ℚ
  startY : ℚ
  targetX : ℚ
  targetY : ℚ
  speed : ℚ
  duration : ℚ
deriving DecidableEq

/-- part_005's `movementInterface` (timestamp/loopId replaced by passing
elapsed time into the loop step). -/
structure MovementR where
  startX : ℚ
  startY : ℚ
  targetX : ℚ
  targetY : ℚ
  speed : ℚ
deriving DecidableEq

namespace Lib

/-- src/lib/CanvasEngine.ts state: `#canvasObjects` keyed by id, plus a
fresh-allocation counter standing for `new CanvasObject(...)` (each
allocation yields a distinct token). -/
structure Engine where
  objects : List (String × Nat)
  fresh : Nat
deriving DecidableEq

/-- src/lib/CanvasEngine.ts `createObject`: unconditionally allocates a
new CanvasObject, alerts when the id is already present, then OVERWRITES
the directory entry with the new object and returns the new object.
Result: (new engine state, returned object token, number of duplicate-id
warnings emitted by this call). -/
def createObject (e : Engine) (id : String) : Engine × Nat × Nat :=
  let newObj := e.fresh
  let warned : Nat := if (lookupKey e.objects id).isSome then 1 else 0
  (⟨setEntry e.objects id newObj, e.fresh + 1⟩, newObj, warned)

/-- src/lib/CanvasEngine.ts `getCanvasObject`: directory lookup,
`null` (here `none`) when absent. -/
def getCanvasObject (e : Engine) (id : String) : Option Nat :=
  lookupKey e.objects id

/-- A src/lib CanvasObject as far as destruction is concerned: its id and
whether its container element is still attached to the document. -/
structure Obj where
  oid : String
  inDom : Bool
deriving DecidableEq

/-- src/lib/CanvasObject.ts `destroy`: the entire body is
`this.#containerElement.remove()`.  The element is detached; the engine
directory is NOT touched (this variant has no unregister call). -/
def destroy (o : Obj) (e : Engine) : Obj × Engine :=
  (⟨o.oid, false⟩, e)

/-- src/lib/CanvasObject.ts `onCollisionTrigger`: stores the handler under
the tag.  It does NOT touch the element's class list. -/
def onCollisionTrigger (classes : List String) (handlers : List (String × Nat))
    (tag : String) (h : Nat) : List String × List (String × Nat) :=
  (classes, setEntry handlers tag h)

/-- src/lib/CanvasObject.ts `setVariable`: `#variables[key] = value`. -/
def setVariable (vars : List (String × JsVal)) (k : String) (v : JsVal) :
    List (String × JsVal) :=
  setEntry vars k v

/-- src/lib/CanvasObject.ts `getVariable`: `#variables[key] ?? null`
(missing property reads as `undefined`, then nullish-coalesces to null;
a stored nullish value also reads back as null). -/
def getVariable (vars : List (String × JsVal)) (k : String) : JsVal :=
  match lookupKey vars k with
  | none => JsVal.null
  | some v => if nullish v then JsVal.null else v

end Lib

namespace MapV

/-- part_001 engine state: `#objects : Map`, plus the fresh-allocation
counter for `new CanvasObject(...)`. -/
structure Engine where
  objects : List (String × Nat)
  fresh : Nat
deriving DecidableEq

/-- part_001 `createObject`: if the id is taken, warn once and return the
existing object without allocating; otherwise allocate, register, return.
Result: (new engine state, returned object token, warnings emitted). -/
def createObject (e : Engine) (id : String) : Engine × Nat × Nat :=
  match lookupKey e.objects id with
  | some obj => (e, obj, 1)
  | none => (⟨e.objects ++ [(id, e.fresh)], e.fresh + 1⟩, e.fresh, 0)

/-- part_001 `getCanvasObject`: `Map.get`. -/
def getCanvasObject (e : Engine) (id : String) : Option Nat :=
  lookupKey e.objects id

/-- A part_004 CanvasObject as far as destruction is concerned: its id
and whether its IntersectionObserver is still connected. -/
structure Obj where
  oid : String
  observerConnected : Bool
deriving DecidableEq

/-- A part_001 engine directory together with the heap of all objects
ever constructed, keyed by allocation token (JS objects survive on the
heap after unregistration; only the directory entry goes away). -/
structure Scene where
  directory : List (String × Nat)
  heap : List (Nat × Obj)
deriving DecidableEq

/-- part_004 `destroy`: runs the destroy callback, removes DOM listeners,
DISCONNECTS the collision observer, calls the engine's
`unregisterObject(id)` (a `Map.delete`), and detaches the container. -/
def destroy (s : Scene) (tok : Nat) : Scene :=
  match lookupKey s.heap tok with
  | none => s
  | some o => ⟨eraseKey s.directory o.oid, setEntry s.heap tok ⟨o.oid, false⟩⟩

/-- Directory lookup on a `Scene` (part_001 `getCanvasObject`). -/
def lookupScene (s : Scene) (id : String) : Option Nat :=
  lookupKey s.directory id

/-- part_004 collision handlers run only inside the object's own
IntersectionObserver callback; a disconnected observer never fires, so an
object's handlers can fire in a sweep only while this is `true`. -/
def canFire (s : Scene) (tok : Nat) : Bool :=
  match lookupKey s.heap tok with
  | some o => o.observerConnected
  | none => false

/-- part_004 `setMoveToPosition(x, y, speed)`: guard `speed <= 0`, guard
`dist === 0` (here: the exact distance, passed as `dist`), otherwise
install a Movement with `duration = dist / speed`. -/
def setMoveToPosition (pos : Pos) (mv : Option Movement) (x y speed dist : ℚ) :
    Pos × Option Movement :=
  if speed ≤ 0 then (pos, mv)
  else if dist = 0 then (pos, mv)
  else (pos, some ⟨pos.x, pos.y, x, y, speed, dist / speed⟩)

/-- part_004 `update(deltaTime)` at a given elapsed time since the
movement started: when `elapsed >= duration` snap to the target and clear
the movement, otherwise interpolate linearly per axis. -/
def update (pos : Pos) (mv : Option Movement) (elapsed : ℚ) : Pos × Option Movement :=
  match mv with
  | none => (pos, none)
  | some m =>
    if m.duration ≤ elapsed then (⟨m.targetX, m.targetY⟩, none)
    else
      (⟨m.startX + (m.targetX - m.startX) * (elapsed / m.duration),
        m.startY + (m.targetY - m.startY) * (elapsed / m.duration)⟩, some m)

/-- part_004 `setPosition(x, y)`: `#movement = null`, then apply the
position. -/
def setPosition (pos : Pos) (mv : Option Movement) (x y : ℚ) : Pos × Option Movement :=
  (⟨x, y⟩, none)

/-- part_004 `onCollisionTrigger(targetClass, callback)`: FIRST adds the
tag to the object's own class list (`this.addClass(targetClass)`,
`classList.add` deduplicates), then stores the handler under the tag. -/
def onCollisionTrigger (classes : List String) (handlers : List (String × Nat))
    (tag : String) (h : Nat) : List String × List (String × Nat) :=
  ((if tag ∈ classes then classes else classes ++ [tag]), setEntry handlers tag h)

/-- part_001 mousemove listener: stores the pointer position RELATIVE TO
THE CONTAINER's top-left, `(clientX - rect.left, clientY - rect.top)`. -/
def mouseMove (rectLeft rectTop clientX clientY : ℚ) : Pos :=
  ⟨clientX - rectLeft, clientY - rectTop⟩

/-- part_001 `#mouse` before any mousemove was observed. -/
def initialMouse : Pos := ⟨0, 0⟩

/-- part_001 `getMousePosition`: returns the stored `#mouse` as is — no
coordinate transform and no camera offset. -/
def getMousePosition (mouse : Pos) : Pos := mouse

/-- part_004 `setVariable`: `Map.set`. -/
def setVariable (vars : List (String × JsVal)) (k : String) (v : JsVal) :
    List (String × JsVal) :=
  setEntry vars k v

/-- part_004 `getVariable`: `Map.get` — `undefined` when the key was
never stored, otherwise exactly the stored value (even a stored null). -/
def getVariable (vars : List (String × JsVal)) (k : String) : JsVal :=
  match lookupKey vars k with
  | none => JsVal.undef
  | some v => v

end MapV

namespace RafV

/-- One iteration of part_005's movement `loop` (first CanvasObject in
part_005), for a movement `m` with time-to-destination `ttd` at elapsed
time `tp`: if `tp > ttd`, `setPosition(target)` and cancel the scheduled
frame — the `#moveToPosition` field is NOT cleared; otherwise interpolate
and schedule the next frame.  Result: (new position, `#moveToPosition`
afterwards, whether another frame is scheduled). -/
def loopStep (m : MovementR) (ttd tp : ℚ) : Pos × Option MovementR × Bool :=
  if ttd < tp then (⟨m.targetX, m.targetY⟩, some m, false)
  else
    (⟨m.startX + (m.targetX - m.startX) * tp / ttd,
      m.startY + (m.targetY - m.startY) * tp / ttd⟩, some m, true)

/-- part_005 `setMoveToPosition(x, y, speed)`: no guard on `speed` or on
a zero-distance target.  It installs the movement record, computes
`timeTillDestination = dist / speed`, and synchronously runs `loop()`
once; at that call `Date.now()` still equals the stored timestamp, so the
first step sees `timepassed = 0`. -/
def setMoveToPosition (pos : Pos) (x y speed dist : ℚ) : Pos × Option MovementR × Bool :=
  loopStep ⟨pos.x, pos.y, x, y, speed⟩ (dist / speed) 0

/-- part_005 `setPosition(x, y)`: records the position and runs the
collision sweep.  It never touches `#moveToPosition`, so an active
movement keeps running. -/
def setPosition (pos : Pos) (mv : Option MovementR) (x y : ℚ) : Pos × Option MovementR :=
  (⟨x, y⟩, mv)

/-- part_005 sweep, resolution of the matched element to a CanvasObject
for the handler's `other` argument:
`getCanvasObject(otherId) ?? createObject(Math.random().toString())`.
When the id resolves, the registered object is used; when it does not,
a FRESH THROWAWAY OBJECT is created — and registered in the engine
directory under the random id — and handed to the handler.  `randomId`
stands for the `Math.random()` string.  Result: (engine afterwards, token
passed to the handler). -/
def resolveOther (e : Lib.Engine) (randomId : String) (elemId : String) :
    Lib.Engine × Nat :=
  match Lib.getCanvasObject e (firstIdToken elemId) with
  | some tok => (e, tok)
  | none =>
    let r := Lib.createObject e randomId
    (r.1, r.2.1)

end RafV

namespace MouseUtil

/-- part_007 `getMousePosition`: starts from `(0, 0)`; when the canvas
element reports a client rectangle of size `(w, h)`, translates the
pointer's client coordinates to logical scene coordinates (origin at the
viewport centre, +Y up) and adds the camera position. -/
def getMousePosition (cameraX cameraY : ℚ) (canvasRect : Option (ℚ × ℚ))
    (clientX clientY : ℚ) : Pos :=
  match canvasRect with
  | none => ⟨0, 0⟩
  | some (w, h) => ⟨clientX - w / 2 + cameraX, h - clientY - h / 2 + cameraY⟩

end MouseUtil

theorem lookupKey_setEntry_self {κ α : Type} [DecidableEq κ] (l : List (κ × α)) (k : κ) (v : α) :
    lookupKey (setEntry l k v) k = some v := by
  induction l with
  | nil => simp [setEntry, lookupKey]
  | cons p rest ih =>
    obtain ⟨a, b⟩ := p
    by_cases hak : a = k
    · simp [setEntry, lookupKey, hak]
    · simp [setEntry, lookupKey, hak, ih]

theorem lookupKey_eraseKey_self {κ α : Type} [DecidableEq κ] (l : List (κ × α)) (k : κ) :
    lookupKey (eraseKey l k) k = none := by
  induction l with
  | nil => simp [eraseKey, lookupKey]
  | cons p rest ih =>
    obtain ⟨a, b⟩ := p
    by_cases hak : a = k
    · simp [eraseKey, hak, ih]
    · simp [eraseKey, lookupKey, hak, ih]

theorem countKey_setEntry_isSome {κ α : Type} [DecidableEq κ] (l : List (κ × α)) (k : κ) (v : α)
    (h : (lookupKey l k).isSome) :
    countKey (setEntry l k v) k = countKey l k := by
  induction l with
  | nil => simp [lookupKey] at h
  | cons p rest ih =>
    obtain ⟨a, b⟩ := p
    by_cases hak : a = k
    · subst hak
      simp [setEntry, countKey]
    · have h2 : (lookupKey rest k).isSome := by
        simpa [lookupKey, hak] using h
      simp [setEntry, countKey, hak, ih h2]

/-- C1 counterexample: in the src/lib engine, `createObject("p")` twice
(starting from an empty directory) allocates a SECOND object (allocation
counter reaches 2), returns the new token 1, not the registered token 0 —
so the second call neither returns the existing object nor refrains from
creating a new one. -/
theorem C1_counterexample :
    (Lib.createObject (Lib.createObject ⟨[], 0⟩ "p").1 "p").2.1 = 1 ∧
    (Lib.createObject ⟨[], 0⟩ "p").2.1 = 0 ∧
    (Lib.createObject (Lib.createObject ⟨[], 0⟩ "p").1 "p").1.fresh = 2 ∧
    (1 : Nat) ≠ 0 := by
  decide

/-- C1 (amended): in the part_001 engine, a duplicate `createObject(id)`
returns the already-registered object with the whole engine state
unchanged (no allocation) and emits exactly one warning.  In the src/lib
engine, a duplicate call still emits exactly one warning and leaves
exactly one directory entry for the id, but a fresh object is allocated,
replaces the existing entry, and is what the call returns. -/
theorem C1_theorem (e : MapV.Engine) (a : Lib.Engine) (id : String) (o : Nat)
    (hB : lookupKey e.objects id = some o) (hA : (lookupKey a.objects id).isSome) :
    MapV.createObject e id = (e, o, 1) ∧
    (Lib.createObject a id).2.2 = 1 ∧
    countKey (Lib.createObject a id).1.objects id = countKey a.objects id ∧
    lookupKey (Lib.createObject a id).1.objects id = some a.fresh := by
  refine ⟨?_, ?_, ?_, ?_⟩
  · simp [MapV.createObject, hB]
  · simp [Lib.createObject, hA]
  · simpa [Lib.createObject] using countKey_setEntry_isSome a.objects id a.fresh hA
  · simpa [Lib.createObject] using lookupKey_setEntry_self a.objects id a.fresh

/-- C1 witness: concrete duplicate creation on both engines. -/
theorem C1_witness :
    MapV.createObject ⟨[("p", 0)], 1⟩ "p" = (⟨[("p", 0)], 1⟩, 0, 1) ∧
    (Lib.createObject ⟨[("p", 0)], 1⟩ "p").2.2 = 1 ∧
    countKey (Lib.createObject (⟨[("p", 0)], 1⟩ : Lib.Engine) "p").1.objects "p" =
      countKey ([("p", 0)] : List (String × Nat)) "p" ∧
    lookupKey (Lib.createObject (⟨[("p", 0)], 1⟩ : Lib.Engine) "p").1.objects "p" = some 1 := by
  have h := C1_theorem ⟨[("p", 0)], 1⟩ ⟨[("p", 0)], 1⟩ "p" 0 (by decide) (by decide)
  exact ⟨h.1, h.2.1, h.2.2.1, h.2.2.2⟩

/-- C2 counterexample: in src/lib, `destroy()` only detaches the DOM
element; the engine directory is untouched, so after destroying the
object registered as "a" the lookup still returns it — not absent. -/
theorem C2_counterexample :
    (Lib.destroy ⟨"a", true⟩ ⟨[("a", 0)], 1⟩).2 = (⟨[("a", 0)], 1⟩ : Lib.Engine) ∧
    Lib.getCanvasObject (Lib.destroy ⟨"a", true⟩ ⟨[("a", 0)], 1⟩).2 "a" = some 0 ∧
    some 0 ≠ (none : Option Nat) := by
  decide

/-- C2 (amended): in the part_001/part_004 variant the claim holds:
destroying a registered object deletes its directory entry (lookup of its
id is absent afterwards) and disconnects its collision observer, so
subsequent sweeps can never invoke its handlers.  In the src/lib variant
`destroy` only detaches the DOM element and the directory entry remains
retrievable. -/
theorem C2_theorem (s : MapV.Scene) (tok : Nat) (o : MapV.Obj)
    (h : lookupKey s.heap tok = some o) :
    MapV.lookupScene (MapV.destroy s tok) o.oid = none ∧
    MapV.canFire (MapV.destroy s tok) tok = false := by
  constructor
  · simp [MapV.destroy, MapV.lookupScene, h, lookupKey_eraseKey_self]
  · simp [MapV.destroy, MapV.canFire, h, lookupKey_setEntry_self]

/-- C2 witness: destroying the concrete object "a" (token 0). -/
theorem C2_witness :
    MapV.lookupScene (MapV.destroy ⟨[("a", 0)], [(0, ⟨"a", true⟩)]⟩ 0) "a" = none ∧
    MapV.canFire (MapV.destroy ⟨[("a", 0)], [(0, ⟨"a", true⟩)]⟩ 0) 0 = false :=
  C2_theorem ⟨[("a", 0)], [(0, ⟨"a", true⟩)]⟩ 0 ⟨"a", true⟩ (by decide)

/-- C3 counterexample: part_005's `setMoveToPosition` has no guard.  At
position (0,0), a call with target (10,0) and NEGATIVE speed -5 (true
distance 10, so timeTillDestination = -2) makes the synchronous first
loop step take the `timepassed > timeTillDestination` branch: the object
teleports to the target and a movement record is installed — not a
silent no-op. -/
theorem C3_counterexample :
    IsDist (10 - 0) (0 - 0) 10 ∧
    RafV.setMoveToPosition ⟨0, 0⟩ 10 0 (-5) 10 =
      ((⟨10, 0⟩ : Pos), some (⟨0, 0, 10, 0, -5⟩ : MovementR), false) ∧
    (⟨10, 0⟩ : Pos) ≠ ⟨0, 0⟩ ∧
    some (⟨0, 0, 10, 0, -5⟩ : MovementR) ≠ none := by
  have hc : ((10 : ℚ) / (-5)) < 0 := by norm_num
  refine ⟨by norm_num [IsDist, hypotSq], ?_, ?_, by simp⟩
  · simp [RafV.setMoveToPosition, RafV.loopStep, hc]
  · simp only [ne_eq, Pos.mk.injEq]
    norm_num

/-- C3 (amended): part_004's `setMoveToPosition` with non-positive speed,
or with the target equal to the current position, is a silent no-op (no
movement created, state unchanged).  part_005's `setMoveToPosition` has
no such guards: with negative speed and a distinct target it installs a
movement record and its synchronous first loop step immediately sets the
position to the target. -/
theorem C3_theorem :
    (∀ (pos : Pos) (mv : Option Movement) (x y speed dist : ℚ),
        IsDist (x - pos.x) (y - pos.y) dist →
        speed ≤ 0 ∨ (x = pos.x ∧ y = pos.y) →
        MapV.setMoveToPosition pos mv x y speed dist = (pos, mv)) ∧
    (∀ (pos : Pos) (x y speed dist : ℚ),
        IsDist (x - pos.x) (y - pos.y) dist →
        speed < 0 → 0 < dist →
        RafV.setMoveToPosition pos x y speed dist =
          ((⟨x, y⟩ : Pos), some (⟨pos.x, pos.y, x, y, speed⟩ : MovementR), false)) := by
  constructor
  · intro pos mv x y speed dist hdist hcase
    rcases hcase with hs | ⟨hx, hy⟩
    · simp [MapV.setMoveToPosition, hs]
    · have h0 : dist = 0 := by
        rcases hdist with ⟨hd0, hdsq⟩
        have hz : dist * dist = 0 := by
          rw [hdsq]
          simp [hypotSq, hx, hy]
        exact mul_self_eq_zero.mp hz
      subst h0
      by_cases hs : speed ≤ 0 <;> simp [MapV.setMoveToPosition, hs]
  · intro pos x y speed dist hdist hs hd
    have httd : dist / speed < 0 := div_neg_of_pos_of_neg hd hs
    simp [RafV.setMoveToPosition, RafV.loopStep, httd]

/-- C3 witness: part_004 no-op on an already-reached target; part_005
teleport on negative speed. -/
theorem C3_witness :
    MapV.setMoveToPosition ⟨0, 0⟩ none 0 0 5 0 = ((⟨0, 0⟩ : Pos), (none : Option Movement)) ∧
    RafV.setMoveToPosition ⟨0, 0⟩ 10 0 (-5) 10 =
      ((⟨10, 0⟩ : Pos), some (⟨0, 0, 10, 0, -5⟩ : MovementR), false) := by
  constructor
  · exact C3_theorem.1 ⟨0, 0⟩ none 0 0 5 0 (by norm_num [IsDist, hypotSq]) (Or.inr ⟨rfl, rfl⟩)
  · exact C3_theorem.2 ⟨0, 0⟩ 10 0 (-5) 10 (by norm_num [IsDist, hypotSq]) (by norm_num)
      (by norm_num)

/-- C4 counterexample: movement (0,0) → (10,0) at speed 5 has duration
10/5 = 2.  Stepping part_005's loop exactly at elapsed = duration takes
the interpolation branch: the position is the target, but the movement is
NOT cleared and another frame is scheduled — refuting "sampling at any
elapsed ≥ duration ... clears the movement". -/
theorem C4_counterexample :
    IsDist (10 - 0) (0 - 0) 10 ∧
    (10 : ℚ) / 5 = 2 ∧
    RafV.loopStep ⟨0, 0, 10, 0, 5⟩ 2 2 =
      ((⟨10, 0⟩ : Pos), some (⟨0, 0, 10, 0, 5⟩ : MovementR), true) ∧
    some (⟨0, 0, 10, 0, 5⟩ : MovementR) ≠ none := by
  have hc : ¬ ((2 : ℚ) < 2) := lt_irrefl 2
  refine ⟨by norm_num [IsDist, hypotSq], by norm_num, ?_, by simp⟩
  simp only [RafV.loopStep, if_neg hc, Prod.mk.injEq, Pos.mk.injEq]
  norm_num

/-- C4 (amended): part_004's `update` at any elapsed ≥ duration sets the
position exactly to the target and clears the movement (so in particular
at elapsed = duration).  part_005's loop at elapsed = duration also
yields exactly the target position (t = 1 interpolation) but leaves the
movement record in place and keeps the loop scheduled; only elapsed
strictly greater than duration takes its snap branch. -/
theorem C4_theorem :
    (∀ (pos : Pos) (m : Movement) (elapsed : ℚ), m.duration ≤ elapsed →
        MapV.update pos (some m) elapsed = ((⟨m.targetX, m.targetY⟩ : Pos), none)) ∧
    (∀ (m : MovementR) (ttd : ℚ), ttd ≠ 0 →
        RafV.loopStep m ttd ttd = ((⟨m.targetX, m.targetY⟩ : Pos), some m, true)) := by
  constructor
  · intro pos m elapsed h
    simp [MapV.update, h]
  · intro m ttd h
    have hx : m.startX + (m.targetX - m.startX) * ttd / ttd = m.targetX := by
      rw [mul_div_assoc, div_self h, mul_one]
      ring
    have hy : m.startY + (m.targetY - m.startY) * ttd / ttd = m.targetY := by
      rw [mul_div_assoc, div_self h, mul_one]
      ring
    simp [RafV.loopStep, lt_irrefl, hx, hy]

/-- C4 witness: part_004 snap at elapsed = duration; part_005 exact
target via interpolation at elapsed = duration. -/
theorem C4_witness :
    MapV.update ⟨0, 0⟩ (some ⟨0, 0, 100, 0, 50, 2⟩) 2 =
      ((⟨100, 0⟩ : Pos), (none : Option Movement)) ∧
    RafV.loopStep ⟨0, 0, 40, 0, 20⟩ 2 2 =
      ((⟨40, 0⟩ : Pos), some (⟨0, 0, 40, 0, 20⟩ : MovementR), true) :=
  ⟨C4_theorem.1 ⟨0, 0⟩ ⟨0, 0, 100, 0, 50, 2⟩ 2 (by decide),
   C4_theorem.2 ⟨0, 0, 40, 0, 20⟩ 2 (by decide)⟩

/-- C5 counterexample: in part_005, with the movement (0,0) → (10,0) at
speed 5 active (timeTillDestination 2), `setPosition(3, 3)` leaves the
movement installed, and the next loop step at elapsed 1 moves the object
to (5,0) — the position changes after `setPosition` although no new
`moveTo` was issued. -/
theorem C5_counterexample :
    RafV.setPosition ⟨0, 0⟩ (some ⟨0, 0, 10, 0, 5⟩) 3 3 =
      ((⟨3, 3⟩ : Pos), some (⟨0, 0, 10, 0, 5⟩ : MovementR)) ∧
    (RafV.loopStep ⟨0, 0, 10, 0, 5⟩ 2 1).1 = (⟨5, 0⟩ : Pos) ∧
    (⟨5, 0⟩ : Pos) ≠ ⟨3, 3⟩ := by
  have hc : ¬ ((2 : ℚ) < 1) := by norm_num
  refine ⟨rfl, ?_, ?_⟩
  · simp only [RafV.loopStep, if_neg hc, Pos.mk.injEq]
    norm_num
  · simp only [ne_eq, Pos.mk.injEq]
    norm_num

/-- C5 (amended): part_004's `setPosition` clears any active movement, so
any subsequent `update` leaves the position unchanged until a new move is
issued.  part_005's `setPosition` returns the active movement untouched,
so its loop keeps interpolating afterwards. -/
theorem C5_theorem :
    (∀ (pos : Pos) (mv : Option Movement) (x y dt : ℚ),
        MapV.update (MapV.setPosition pos mv x y).1 (MapV.setPosition pos mv x y).2 dt =
          ((⟨x, y⟩ : Pos), (none : Option Movement))) ∧
    (∀ (pos : Pos) (mv : Option MovementR) (x y : ℚ),
        (RafV.setPosition pos mv x y).2 = mv) := by
  constructor
  · intro pos mv x y dt
    simp [MapV.setPosition, MapV.update]
  · intro pos mv x y
    rfl

/-- C6: the sweep's overlap test compares the rectangles' TOP-LEFT
corners against half the summed extents, not their centres.  Concrete
divergence: self rectangle at corner (0,0), 100×100 (centre (50,50));
other at corner (90,0), 10×100 (centre (95,50)) — the rectangles overlap
and the centre-based test of the claim accepts (|50-95| = 45 ≤ 55), but
the code computes |0-90| = 90 ≤ 55, rejects, and never invokes the
handler. -/
theorem C6_theorem :
    centersOverlap ⟨0, 0, 100, 100⟩ ⟨90, 0, 10, 100⟩ ∧
    ¬ collides ⟨0, 0, 100, 100⟩ ⟨90, 0, 10, 100⟩ ∧
    sweepMatches ⟨0, 0, 100, 100⟩ "hit" [⟨"b", ["hit"], ⟨90, 0, 10, 100⟩⟩] = [] := by
  have hncol : ¬ collides ⟨0, 0, 100, 100⟩ ⟨90, 0, 10, 100⟩ := by
    intro h
    have h1 := h.1
    rw [abs_le] at h1
    norm_num at h1
  refine ⟨⟨?_, ?_⟩, hncol, ?_⟩
  · rw [abs_le]
    constructor <;> norm_num
  · rw [abs_le]
    constructor <;> norm_num
  · simp [sweepMatches, decide_eq_false hncol]

/-- C7: in part_005's sweep, a tag-matched element whose id "ghost" is
not in the directory is NOT surfaced as an inconsistency: the code
evaluates `getCanvasObject("ghost") ?? createObject(randomId)`, which
registers a fresh throwaway object (token 1) under the random id in the
engine directory and passes it to the handler as `other`. -/
theorem C7_theorem :
    Lib.getCanvasObject (⟨[("a", 0)], 1⟩ : Lib.Engine) "ghost" = none ∧
    RafV.resolveOther ⟨[("a", 0)], 1⟩ "0.5" "ghost" = (⟨[("a", 0), ("0.5", 1)], 2⟩, 1) ∧
    countKey (RafV.resolveOther (⟨[("a", 0)], 1⟩ : Lib.Engine) "0.5" "ghost").1.objects "0.5" =
      1 := by
  decide

/-- C8 counterexample: src/lib's `onCollisionTrigger` leaves the object's
class list empty, so another object subscribed to "hit" sweeping over it
finds no element with that class even at a perfectly overlapping
rectangle — the subscribing object never becomes detectable. -/
theorem C8_counterexample :
    (Lib.onCollisionTrigger [] [] "hit" 7).1 = [] ∧
    sweepMatches ⟨0, 0, 10, 10⟩ "hit"
      [⟨"b", (Lib.onCollisionTrigger [] [] "hit" 7).1, ⟨0, 0, 10, 10⟩⟩] = [] := by
  decide

/-- C8 (amended): part_004's `onCollisionTrigger(tag, handler)` adds the
tag to the object's own class list (so same-tag subscribers can detect it
symmetrically) and registers the handler under the tag.  src/lib's
`onCollisionTrigger` registers only the handler and never touches the
class list. -/
theorem C8_theorem :
    (∀ (classes : List String) (handlers : List (String × Nat)) (tag : String) (h : Nat),
        tag ∈ (MapV.onCollisionTrigger classes handlers tag h).1 ∧
        lookupKey (MapV.onCollisionTrigger classes handlers tag h).2 tag = some h) ∧
    (∀ (classes : List String) (handlers : List (String × Nat)) (tag : String) (h : Nat),
        (Lib.onCollisionTrigger classes handlers tag h).1 = classes) := by
  constructor
  · intro classes handlers tag h
    constructor
    · by_cases hc : tag ∈ classes
      · simp [MapV.onCollisionTrigger, hc]
      · simp [MapV.onCollisionTrigger, hc]
    · simp [MapV.onCollisionTrigger, lookupKey_setEntry_self]
  · intro classes handlers tag h
    rfl

/-- C9 counterexample: with the container (800×600) at the page origin,
camera at (10,0), and the pointer observed at dead centre (400,300), the
part_001 query returns the raw container-relative pair (400,300) — not
the logical (10,0) the claim requires (no camera translation at all). -/
theorem C9_counterexample :
    MapV.getMousePosition (MapV.mouseMove 0 0 400 300) = (⟨400, 300⟩ : Pos) ∧
    (⟨400, 300⟩ : Pos) ≠ ⟨10, 0⟩ := by
  constructor
  · simp only [MapV.getMousePosition, MapV.mouseMove, Pos.mk.injEq]
    norm_num
  · simp only [ne_eq, Pos.mk.injEq]
    norm_num

/-- C9 (amended): the part_007 transform does satisfy the scenario: for
any camera position and canvas size, a pointer at the canvas's dead
centre maps to exactly the camera position, and a missing canvas
rectangle yields the origin.  The part_001 engine's `getMousePosition`
instead returns the stored container-relative pointer position verbatim —
origin before any observation, but with no centring, no Y flip and no
camera offset. -/
theorem C9_theorem :
    (∀ (cx cy w h a b : ℚ),
        MouseUtil.getMousePosition cx cy (some (w, h)) (w / 2) (h / 2) = (⟨cx, cy⟩ : Pos) ∧
        MouseUtil.getMousePosition cx cy none a b = (⟨0, 0⟩ : Pos)) ∧
    (MapV.initialMouse = (⟨0, 0⟩ : Pos) ∧
      ∀ (l t cX cY : ℚ),
        MapV.getMousePosition (MapV.mouseMove l t cX cY) = (⟨cX - l, cY - t⟩ : Pos)) := by
  refine ⟨fun cx cy w h a b => ⟨?_, rfl⟩, rfl, fun l t cX cY => rfl⟩
  simp only [MouseUtil.getMousePosition, Pos.mk.injEq]
  constructor <;> ring

/-- C10 counterexample: in part_004's Map-backed store, a stored null
reads back as null while a never-stored key reads back as undefined —
the two are distinguishable, contradicting the claim. -/
theorem C10_counterexample :
    MapV.getVariable (MapV.setVariable [] "k" JsVal.null) "k" = JsVal.null ∧
    MapV.getVariable [] "k" = JsVal.undef ∧
    JsVal.null ≠ JsVal.undef := by
  decide

/-- C10 (amended): for the src/lib store (`#variables[key] ?? null`) the
claim holds: a never-stored key and a stored nullish value both read back
as null, and any non-nullish stored value reads back exactly.  For the
part_004 Map store, a never-stored key reads back as undefined while a
stored null reads back as null — both absent-style results, but
distinguishable from each other. -/
theorem C10_theorem :
    (∀ (vars : List (String × JsVal)) (k : String),
        lookupKey vars k = none → Lib.getVariable vars k = JsVal.null) ∧
    (∀ (vars : List (String × JsVal)) (k : String) (v : JsVal),
        nullish v = true → Lib.getVariable (Lib.setVariable vars k v) k = JsVal.null) ∧
    (∀ (vars : List (String × JsVal)) (k : String) (v : JsVal),
        nullish v = false → Lib.getVariable (Lib.setVariable vars k v) k = v) ∧
    (∀ (vars : List (String × JsVal)) (k : String),
        MapV.getVariable (MapV.setVariable vars k JsVal.null) k = JsVal.null) ∧
    (∀ (k : String), MapV.getVariable [] k = JsVal.undef) := by
  refine ⟨?_, ?_, ?_, ?_, ?_⟩
  · intro vars k hk
    simp [Lib.getVariable, hk]
  · intro vars k v hv
    simp [Lib.getVariable, Lib.setVariable, lookupKey_setEntry_self, hv]
  · intro vars k v hv
    simp [Lib.getVariable, Lib.setVariable, lookupKey_setEntry_self, hv]
  · intro vars k
    simp [MapV.getVariable, MapV.setVariable, lookupKey_setEntry_self]
  · intro k
    rfl

/-- C10 witness: concrete reads from the src/lib store. -/
theorem C10_witness :
    Lib.getVariable ([] : List (String × JsVal)) "k" = JsVal.null ∧
    Lib.getVariable (Lib.setVariable [] "k" JsVal.null) "k" = JsVal.null ∧
    Lib.getVariable (Lib.setVariable [] "k" (JsVal.num 7)) "k" = JsVal.num 7 :=
  ⟨C10_theorem.1 [] "k" rfl,
   C10_theorem.2.1 [] "k" JsVal.null rfl,
   C10_theorem.2.2.1 [] "k" (JsVal.num 7) rfl⟩
